import Mathlib

/-!
Verification of the willthisfreeze scraping pipeline.

Shallow embedding of the pure computational core of the repository:

* `willthisfreeze/scraper/utils.py`        — `bounding_box`, `haversine_distance`
* `willthisfreeze/scraper/c2c_scraper.py`  — `C2CApiCallIterator` (pagination and
  retry logic) and `C2CScraper._insert_item` (outing/route write-back ordering)
* `willthisfreeze/scraper/weather_stations_attribution.py` — `filter_stations`,
  the per-route attribution loop body and `update_weather_stations_interest_flag`
* `willthisfreeze/scraper/meteofrance_scraper.py` — `_load_stations_metadata`
  (region restart logic), `scrape_stations_metadata`, `poll_and_download`,
  `scrape_station`
* `willthisfreeze/dbutils/dbutils.py`      — the persistence primitives the above
  consume (`check_route_existence`, `load_scraped_stations_ids`,
  `insert_weather_station`), modelled as explicit state passing over the sets of
  ids present in the store.

Python floats are modelled as real numbers; HTTP traffic is modelled by explicit
response oracles; database side effects are modelled as event traces.
-/

namespace WillThisFreeze

open Real

/-! ## Geo math (`scraper/utils.py`) -/

/-- Embedding of `math.radians`: degrees to radians. -/
noncomputable def radians (x : ℝ) : ℝ := x * π / 180

/-- Return type of `bounding_box` — the tuple `(min_lat, max_lat, min_lon, max_lon)`. -/
structure Box where
  min_lat : ℝ
  max_lat : ℝ
  min_lon : ℝ
  max_lon : ℝ

/-- Embedding of `utils.bounding_box` (utils.py:108-133).
`delta_lat = (max_distance_km / R) * (180 / pi)` with `R = 6371.0`, and
`delta_lon = (max_distance_km / R) * (180 / pi) / cos(radians(lat))`. -/
noncomputable def bounding_box (lat lon : ℝ) (max_distance_km : ℝ) : Box :=
  let R : ℝ := 6371
  let delta_lat := (max_distance_km / R) * (180 / π)
  let delta_lon := (max_distance_km / R) * (180 / π) / Real.cos (radians lat)
  { min_lat := lat - delta_lat
    max_lat := lat + delta_lat
    min_lon := lon - delta_lon
    max_lon := lon + delta_lon }

/-- Embedding of Python's `math.atan2 y x` (the convention used by CPython:
quadrant-aware arctangent). -/
noncomputable def atan2 (y x : ℝ) : ℝ :=
  if 0 < x then Real.arctan (y / x)
  else if x < 0 ∧ 0 ≤ y then Real.arctan (y / x) + π
  else if x < 0 then Real.arctan (y / x) - π
  else if 0 < y then π / 2
  else if y < 0 then -(π / 2)
  else 0

/-- Embedding of `utils.haversine_distance` (utils.py:135-165) on coordinates
given in decimal degrees, Earth radius `R = 6371.0` km. -/
noncomputable def haversine_distance (lat1 lon1 lat2 lon2 : ℝ) : ℝ :=
  let R : ℝ := 6371
  let phi1 := radians lat1
  let phi2 := radians lat2
  let delta_phi := radians (lat2 - lat1)
  let delta_lambda := radians (lon2 - lon1)
  let a := Real.sin (delta_phi / 2) ^ 2 +
    Real.cos phi1 * Real.cos phi2 * Real.sin (delta_lambda / 2) ^ 2
  let c := 2 * atan2 (Real.sqrt a) (Real.sqrt (1 - a))
  R * c

/-! ## Paginated iterator page planning (`C2CApiCallIterator`, c2c_scraper.py:35-125) -/

/-- Embedding of `C2CApiCallIterator._update_num_iter_loops` (c2c_scraper.py:56-63):
`num_iter_loops = math.ceil(total / results_per_page) if total else 1`.
For positive `results_per_page`, `math.ceil` of the rational quotient equals
`(total + results_per_page - 1) / results_per_page` in natural division. -/
def update_num_iter_loops (results_per_page total : ℕ) : ℕ :=
  if total ≠ 0 then (total + results_per_page - 1) / results_per_page else 1

/-- Number of further pages produced by repeated `__next__` calls starting from
`current_loop`, once `num_iter_loops` is fixed (it is only updated on the first
page): `__next__` raises `StopIteration` when `current_loop > num_iter_loops`,
otherwise yields a page and increments `current_loop` (c2c_scraper.py:110-125). -/
def pages_from (num_iter_loops current_loop : ℕ) : ℕ :=
  if _h : current_loop > num_iter_loops then 0
  else 1 + pages_from num_iter_loops (current_loop + 1)
termination_by num_iter_loops + 1 - current_loop
decreasing_by omega

/-- Total number of pages the iterator produces for a first page reporting
`total`: the first page is always produced (`current_loop = 1 ≤ num_iter_loops = 1`),
after it `num_iter_loops` is recomputed from `total`, and the remaining pages
run from `current_loop = 2`. -/
def pages_produced (results_per_page total : ℕ) : ℕ :=
  1 + pages_from (update_num_iter_loops results_per_page total) 2

/-! ## Retry loop (`C2CApiCallIterator._get_with_retries`, c2c_scraper.py:68-108) -/

/-- Outcome of one `requests.get` attempt: either a response with some HTTP
status code, or the request itself raised (connection error, timeout, ...),
labelled by an arbitrary code. -/
inductive AttemptOutcome where
  | resp (status : ℕ)
  | connError (e : ℕ)
deriving DecidableEq, Repr

/-- Python exception surfaced by the retry loop. -/
inductive PyExc where
  | httpError (status : ℕ)
  | connError (e : ℕ)
  | assertionError
deriving DecidableEq, Repr

/-- Result of `_get_with_retries`: success records which attempt returned 200 and
how many backoff sleeps ran before it; failure records the raised exception,
the number of attempts made and the number of backoff sleeps. -/
inductive FetchResult where
  | success (attempt : ℕ) (sleeps : ℕ)
  | failure (e : PyExc) (attempts : ℕ) (sleeps : ℕ)
deriving DecidableEq, Repr

/-- One pass of the `for attempt in range(1, max_retries + 1)` loop of
`_get_with_retries`.  `fuel` is the number of attempts left, `attempt` the
1-based attempt index, `last_exc` the last caught exception, `sleeps` the
backoff sleeps performed so far.  Status 200 returns; status 429/5xx logs and
falls through to the backoff sleep recording no exception; any other status
calls `resp.raise_for_status()`, whose `HTTPError` is caught by the enclosing
`except Exception` (which sets `last_exc`) and is followed by the same backoff
sleep; an exception from `requests.get` itself is handled the same way.  After
the loop, `assert last_exc is not None` raises `AssertionError` when no
exception was recorded, otherwise `last_exc` is re-raised. -/
def get_with_retries_go (oracle : ℕ → AttemptOutcome) :
    ℕ → ℕ → Option PyExc → ℕ → FetchResult
  | _attempt, 0, last_exc, sleeps =>
    match last_exc with
    | none => .failure .assertionError 0 sleeps
    | some e => .failure e 0 sleeps
  | attempt, fuel + 1, last_exc, sleeps =>
    match oracle attempt with
    | .resp status =>
      if status = 200 then
        .success attempt sleeps
      else if status = 429 ∨ (500 ≤ status ∧ status < 600) then
        get_with_retries_go oracle (attempt + 1) fuel last_exc (sleeps + 1)
      else
        get_with_retries_go oracle (attempt + 1) fuel (some (.httpError status)) (sleeps + 1)
    | .connError e =>
      get_with_retries_go oracle (attempt + 1) fuel (some (.connError e)) (sleeps + 1)

/-- Record the total attempts made in a failure result. -/
def with_attempts (max_retries : ℕ) : FetchResult → FetchResult
  | .failure e _ sleeps => .failure e max_retries sleeps
  | r => r

/-- Embedding of `_get_with_retries` with response behaviour `oracle`
(`oracle n` is the outcome of the `n`-th attempt, 1-based). -/
def get_with_retries (oracle : ℕ → AttemptOutcome) (max_retries : ℕ) : FetchResult :=
  with_attempts max_retries (get_with_retries_go oracle 1 max_retries none 0)

/-! ## Outing write-back (`C2CScraper._insert_item`, c2c_scraper.py:447-489) -/

/-- The route record returned by the `scrape_route` worker when it succeeds:
its canonical id (`document_id` of the fetched detail document) and the embedded
outing stubs harvested alongside. -/
structure RouteRecord where
  route_id : ℕ
  outings : List ℕ
deriving DecidableEq, Repr

/-- The outing record produced by the `scrape_outing` worker: its id and
the ids of the routes it references (`outingInfo["routes"]`). -/
structure OutingRecord where
  outing_id : ℕ
  routes : List ℕ
deriving DecidableEq, Repr

/-- Database write performed by `_insert_item`. -/
inductive DbEvent where
  | insert_route (rec : RouteRecord)
  | insert_outing (outing_id : ℕ)
deriving DecidableEq, Repr

/-- The `for route in itemdata["outingInfo"]["routes"]` loop of `_insert_item`
(c2c_scraper.py:461-486).  The store is the set of route ids for which
`check_route_existence` (dbutils.py:246-255) answers true; because
`insert_route` commits (dbutils.py:159), a route inserted for an earlier list
entry is visible to later existence checks, which the threading of `store`
models.  `fetch r` is the outcome of the synchronous `self.scrape_route`
call for route id `r`: `none` when the worker returned an error record, and the
scraped record otherwise.  Returns the write events, the grown store and the
final value of `outing_not_written`. -/
def insert_item_routes_loop (fetch : ℕ → Option RouteRecord) :
    List ℕ → List ℕ → Bool → List DbEvent × List ℕ × Bool
  | [], store, outing_not_written => ([], store, outing_not_written)
  | r :: rest, store, outing_not_written =>
    if r ∈ store then
      insert_item_routes_loop fetch rest store outing_not_written
    else
      match fetch r with
      | none =>
        -- scrape error: log and `continue`
        insert_item_routes_loop fetch rest store outing_not_written
      | some rec =>
        let (evs, store2, onw2) :=
          insert_item_routes_loop fetch rest (rec.route_id :: store) false
        (.insert_route rec :: evs, store2, onw2)

/-- Embedding of the outing branch of `C2CScraper._insert_item`
(c2c_scraper.py:452-489): run the route loop, then insert the outing itself
only if `outing_not_written` is still true. -/
def insert_item_outing (fetch : ℕ → Option RouteRecord) (store : List ℕ)
    (outing : OutingRecord) : List DbEvent × List ℕ :=
  let (evs, store2, outing_not_written) :=
    insert_item_routes_loop fetch outing.routes store true
  if outing_not_written then (evs ++ [.insert_outing outing.outing_id], store2)
  else (evs, store2)

/-- Count of route-insert events for a given route id. -/
def count_route_inserts (evs : List DbEvent) (r : ℕ) : ℕ :=
  evs.countP fun e =>
    match e with
    | .insert_route rec => rec.route_id == r
    | .insert_outing _ => false

/-- Whether the trace contains an outing insert. -/
def has_outing_insert (evs : List DbEvent) : Bool :=
  evs.any fun e =>
    match e with
    | .insert_route _ => false
    | .insert_outing _ => true

/-! ## Station attribution (`scraper/weather_stations_attribution.py`) -/

/-- The fields of a `WeatherStation` row the attribution engine reads. -/
structure StationRow where
  station_id : String
  lat : ℝ
  lon : ℝ

/-- The fields of a `Routes` row the attribution engine reads and writes:
coordinates and the route-station association (as the list of station ids
linked through `route_stations_mapping`). -/
structure RouteRow where
  route_id : ℕ
  lat : ℝ
  lon : ℝ
  stations : List String

/-- Sort key used by `filter_stations` (weather_stations_attribution.py:58):
`haversine_distance((route.lat, route.lon), (s.lat, s.lon))`. -/
noncomputable def station_distance (route : RouteRow) (s : StationRow) : ℝ :=
  haversine_distance route.lat route.lon s.lat s.lon

/-- Embedding of `filter_stations` (weather_stations_attribution.py:50-60):
`sorted(stations, key=distance)[:nkeep]`, mapped to station ids.  Python's
`sorted` is a stable sort by nondecreasing key, modelled by `insertionSort`
over the key order. -/
noncomputable def filter_stations (route : RouteRow) (stations : List StationRow)
    (nkeep : ℕ) : List String :=
  if stations.isEmpty then []
  else
    ((stations.insertionSort fun s1 s2 =>
        station_distance route s1 ≤ station_distance route s2).take nkeep).map
      (·.station_id)

/-- Progress counters of the attribution loop
(weather_stations_attribution.py:130-133). -/
structure AttrCounters where
  processed : ℕ
  updated : ℕ
  no_station_candidates : ℕ
deriving DecidableEq, Repr

/-- Embedding of one iteration of the `for route in routes` loop of
`weather_stations_attribution` (weather_stations_attribution.py:140-152):
`stations` is the candidate list returned by `load_stations_within_radius`;
an empty candidate list leaves the route untouched and counts it uncovered,
otherwise `update_routes_station_mapping` replaces `route.stations` by the
ids chosen by `filter_stations` with `nkeep = NKEEP = 10`. -/
noncomputable def attribution_step (stations : List StationRow) (route : RouteRow)
    (counters : AttrCounters) : RouteRow × AttrCounters :=
  let counters := { counters with processed := counters.processed + 1 }
  if stations.isEmpty then
    (route, { counters with no_station_candidates := counters.no_station_candidates + 1 })
  else
    ({ route with stations := filter_stations route stations 10 },
     { counters with updated := counters.updated + 1 })

/-- Embedding of `update_weather_stations_interest_flag`
(weather_stations_attribution.py:75-93): stations with no row in
`route_stations_mapping` (i.e. associated with zero routes) get
`of_interest := False`; all other rows are untouched.  `route_count s` is the
number of routes associated with station `s` and `of_interest` the flag column
before the update. -/
def update_weather_stations_interest_flag (route_count : String → ℕ)
    (of_interest : String → Bool) : String → Bool :=
  fun s => if route_count s = 0 then false else of_interest s

/-- Number of routes associated with a station, derived from the route rows. -/
def station_route_count (routes : List RouteRow) (sid : String) : ℕ :=
  (routes.filter fun r => sid ∈ r.stations).length

/-- The full route pass of `weather_stations_attribution`
(weather_stations_attribution.py:140-166) with the per-route candidate query
abstracted as `candidates` (the stations table is not modified during the
pass, so the bounding-box query depends only on the route).  Returns the
updated route rows. -/
noncomputable def attribution_pass (candidates : RouteRow → List StationRow) :
    List RouteRow → List RouteRow
  | [] => []
  | route :: rest =>
    (attribution_step (candidates route) route ⟨0, 0, 0⟩).1 ::
      attribution_pass candidates rest

/-- The station flags after the full pass and the one global recomputation that
follows it (weather_stations_attribution.py:178-179). -/
noncomputable def attribution_pass_flags (candidates : RouteRow → List StationRow)
    (routes : List RouteRow) (of_interest : String → Bool) : String → Bool :=
  update_weather_stations_interest_flag
    (station_route_count (attribution_pass candidates routes)) of_interest

/-! ## Station metadata harvest (`MFScraper`, meteofrance_scraper.py) -/

/-- One entry of the `/liste-stations` response for a department: the station
id and its `posteOuvert` (administratively open) flag. -/
structure MFStationListing where
  id : String
  posteOuvert : Bool
deriving DecidableEq, Repr

/-- The row written by `insert_weather_station` (dbutils.py:277-321) as called
from `_load_stations_metadata`: the caller's `stationInfo` dict carries no
`ofInterest` key, so the parameter keeps its Python default `ofInterest=True`. -/
structure WeatherStationRow where
  station_id : String
  of_interest : Bool
deriving DecidableEq, Repr

/-- Externally visible action of the metadata harvest. -/
inductive MFEvent where
  | api_list (department : ℕ)
  | api_info (station_id : String)
  | insert_station (row : WeatherStationRow)
  | commit
deriving DecidableEq, Repr

/-- Embedding of Python's `int(...)` on the digit strings used as station ids:
defined iff the string is nonempty and all characters are ASCII digits
(station ids are such strings; on anything else `int` raises). -/
def parse_nat (s : String) : Option ℕ :=
  if !s.toList.isEmpty && s.toList.all (·.isDigit)
  then some (s.toList.foldl (fun acc c => 10 * acc + (c.toNat - 48)) 0)
  else none

/-- The skip condition of `scrape_stations_metadata` (meteofrance_scraper.py:148):
`(stationId in already_scraped_ids) or not(s.get('posteOuvert')) or
(int(stationId) == 73187403)`.  Station ids are numeric strings, so
`int(stationId)` is modelled by `parse_nat`. -/
def mf_station_skipped (already_scraped_ids : List String) (s : MFStationListing) : Bool :=
  already_scraped_ids.contains s.id || !s.posteOuvert || parse_nat s.id == some 73187403

/-- The `for s in j` loop of `scrape_stations_metadata`
(meteofrance_scraper.py:146-177): skipped stations contribute a
`{"skipped": True}` entry and no API call; the others call
`get_station_metadata` (one `/information-station` request) and contribute a
full entry.  Returns the API-call events and the `stationsList` entries as
`(stationId, skipped)` pairs. -/
def scrape_stations_loop (already_scraped_ids : List String) :
    List MFStationListing → List MFEvent × List (String × Bool)
  | [] => ([], [])
  | s :: rest =>
    let (evs, lst) := scrape_stations_loop already_scraped_ids rest
    if mf_station_skipped already_scraped_ids s then
      (evs, (s.id, true) :: lst)
    else
      (.api_info s.id :: evs, (s.id, false) :: lst)

/-- Embedding of `MFScraper.scrape_stations_metadata` (meteofrance_scraper.py:119-178)
for one department: one `/liste-stations` request (whose response is
`listing department`), then the per-station loop. -/
def scrape_stations_metadata (listing : ℕ → List MFStationListing)
    (department : ℕ) (already_scraped_ids : List String) :
    List MFEvent × List (String × Bool) :=
  let (evs, lst) := scrape_stations_loop already_scraped_ids (listing department)
  (.api_list department :: evs, lst)

/-- The write loop of `_load_stations_metadata` (meteofrance_scraper.py:325-335):
entries flagged skipped are not written; the others are inserted with
`commit=False` (so `of_interest` keeps its default `true`); one
`session.commit()` closes the department's batch. -/
def mf_write_loop : List (String × Bool) → List MFEvent
  | [] => [.commit]
  | (sid, skipped) :: rest =>
    if skipped then mf_write_loop rest
    else .insert_station ⟨sid, true⟩ :: mf_write_loop rest

/-- The set of already-harvested departments computed by
`_load_stations_metadata` (meteofrance_scraper.py:309):
`{int(s[:2]) for s in already_scraped_stations}`. -/
def already_scraped_departments (already_scraped_ids : List String) : List ℕ :=
  already_scraped_ids.filterMap fun s => parse_nat (s.take 2)

/-- The body of the `for dept in range(1, 96)` loop of `_load_stations_metadata`
(meteofrance_scraper.py:317-335): a department whose prefix is already known is
skipped entirely (no API call, no write); otherwise the department is scraped
and its stations written as one batch closed by a single commit. -/
def process_department (listing : ℕ → List MFStationListing)
    (already_scraped_ids : List String) (department : ℕ) : List MFEvent :=
  if department ∈ already_scraped_departments already_scraped_ids then []
  else
    let (evs, lst) := scrape_stations_metadata listing department already_scraped_ids
    evs ++ mf_write_loop lst

/-- Embedding of `MFScraper._load_stations_metadata` (meteofrance_scraper.py:301-342):
departments 1..95 processed in order. -/
def load_stations_metadata (listing : ℕ → List MFStationListing)
    (already_scraped_ids : List String) : List MFEvent :=
  ((List.range' 1 95).map (process_department listing already_scraped_ids)).flatten

/-! ## Time-series order polling (`MFScraper.poll_and_download`,
meteofrance_scraper.py:230-251, and `MFScraper.scrape_station`,
meteofrance_scraper.py:261-299) -/

/-- An HTTP response of the `/commande/fichier` endpoint. -/
structure HttpResp where
  status : ℕ
  body : String
deriving DecidableEq, Repr

/-- Result of `poll_and_download`. -/
inductive PollOutcome where
  | file (body : String) (requests_made : ℕ)
  | httpError (status : ℕ) (requests_made : ℕ)
deriving DecidableEq, Repr

/-- Embedding of `MFScraper.poll_and_download` (meteofrance_scraper.py:230-251).
`responses n` is the response to the `n`-th download request (0-based).  The
body of the `while True` loop performs one `requests.get`, raises via
`raise_for_status` on a 4xx/5xx status, and otherwise writes `r.content` to the
chunk file and executes `return fname` — unconditionally, inside the `with`
block.  The deadline check and `time.sleep(wait_seconds)` at
meteofrance_scraper.py:246-251 sit after that `return` and are unreachable, so
the loop is exactly its first iteration and no `TimeoutError` can be raised. -/
def poll_and_download (responses : ℕ → HttpResp) : PollOutcome :=
  let r := responses 0
  if 400 ≤ r.status then .httpError r.status 1
  else .file r.body 1

/-- Embedding of the chunk loop of `MFScraper.scrape_station`
(meteofrance_scraper.py:280-294): each chunk's `download_period` either
returns a file name (`some`) or raises (`none`); the `except` clause drops the
chunk and continues with the next one. -/
def scrape_station_chunks (download : ℕ → Option String) : List ℕ → List String
  | [] => []
  | chunk :: rest =>
    match download chunk with
    | some fname => fname :: scrape_station_chunks download rest
    | none => scrape_station_chunks download rest

/-! ## Theorems: pagination (C9) -/

/-- Closed form of the page loop: from `current_loop = c` with `c ≤ n + 1`,
exactly `n + 1 - c` further pages are produced. -/
theorem pages_from_eq (n : ℕ) : ∀ k c, n + 1 - c = k → c ≤ n + 1 → pages_from n c = k := by
  intro k
  induction k with
  | zero =>
    intro c hk hc
    have hc' : c > n := by omega
    rw [pages_from, dif_pos hc']
  | succ k ih =>
    intro c hk hc
    have hc' : ¬ c > n := by omega
    rw [pages_from, dif_neg hc']
    have := ih (c + 1) (by omega) (by omega)
    omega

/-- The natural-division ceiling used by `update_num_iter_loops` agrees with the
rational ceiling `⌈T / L⌉` for positive `T` and `L`. -/
theorem nat_ceil_div (T L : ℕ) (hL : 0 < L) (hT : 0 < T) :
    ((T + L - 1) / L : ℕ) = ⌈(T : ℚ) / (L : ℚ)⌉₊ := by
  have hdm := Nat.div_add_mod (T + L - 1) L
  have hmlt : (T + L - 1) % L < L := Nat.mod_lt _ hL
  set N := (T + L - 1) / L with hN
  have hN1 : 1 ≤ N := by
    rw [hN]
    have : L ≤ T + L - 1 := by omega
    exact Nat.one_le_div_iff hL |>.2 this
  have hub : T ≤ N * L := by rw [mul_comm]; omega
  have hNpred : N - 1 = (T - 1) / L := by
    have h1 : T + L - 1 = (T - 1) + L := by omega
    rw [hN, h1, Nat.add_div_right _ hL]
    exact Nat.add_sub_cancel _ _
  have hlb : (N - 1) * L < T := by
    have hms := Nat.div_mul_le_self (T - 1) L
    rw [hNpred]
    omega
  symm
  rw [Nat.ceil_eq_iff (by omega)]
  have hLQ : (0 : ℚ) < (L : ℚ) := by exact_mod_cast hL
  constructor
  · rw [lt_div_iff₀ hLQ]
    exact_mod_cast hlb
  · rw [div_le_iff₀ hLQ]
    exact_mod_cast hub

/-- Claim C9: for every first page reporting a total `T` and page size `L` with
`0 < L ≤ 100`, the iterator produces exactly `⌈T / L⌉` pages when `T > 0` and
exactly one page when `T = 0`. -/
theorem c9_page_count (L T : ℕ) (hL : 0 < L) (hL100 : L ≤ 100) :
    (T = 0 → pages_produced L T = 1) ∧
    (0 < T → pages_produced L T = ⌈(T : ℚ) / (L : ℚ)⌉₊) := by
  constructor
  · intro hT
    subst hT
    rw [pages_produced, update_num_iter_loops]
    simp only [ne_eq, not_true_eq_false, if_false]
    rw [pages_from_eq 1 0 2 (by omega) (by omega)]
  · intro hT
    have hceil := nat_ceil_div T L hL hT
    rw [pages_produced, update_num_iter_loops, if_pos (by omega)]
    set N := (T + L - 1) / L with hN
    have hN1 : 1 ≤ N := by
      rw [hN]
      have : L ≤ T + L - 1 := by omega
      exact Nat.one_le_div_iff hL |>.2 this
    rw [pages_from_eq N (N - 1) 2 (by omega) (by omega)]
    omega

/-- Witness for C9: `total = 250` with `limit = 100` yields exactly 3 pages, and
`total = 0` yields exactly 1 page. -/
theorem c9_page_count_witness :
    0 < 100 ∧ 100 ≤ 100 ∧
    pages_produced 100 250 = ⌈(250 : ℚ) / (100 : ℚ)⌉₊ ∧
    pages_produced 100 250 = 3 ∧ pages_produced 100 0 = 1 := by
  refine ⟨by norm_num, by norm_num,
    (c9_page_count 100 250 (by norm_num) (by norm_num)).2 (by norm_num), ?_,
    (c9_page_count 100 0 (by norm_num) (by norm_num)).1 rfl⟩
  rw [pages_produced, update_num_iter_loops]
  norm_num
  rw [pages_from_eq 3 2 2 (by norm_num) (by norm_num)]

/-! ## Theorems: retry loop (C2, C3) -/

/-- Claim C2 is false on the code: `resp.raise_for_status()` for a non-retryable
status such as 404 is executed inside the `try` block, so its `HTTPError` is
caught by the `except Exception` handler, recorded as `last_exc`, and the loop
performs the backoff sleep and further attempts.  With the default 3 attempts,
a request answered 404 every time performs 3 attempts and 3 backoff sleeps and
only then raises the `HTTPError`; a request answered 404 then 200 even
*succeeds* on the second attempt after one backoff sleep, instead of aborting
on the first attempt. -/
theorem c2_404_is_retried :
    get_with_retries (fun _ => .resp 404) 3 = .failure (.httpError 404) 3 3 ∧
    get_with_retries (fun n => if n = 1 then .resp 404 else .resp 200) 3 = .success 2 1 := by
  exact ⟨rfl, rfl⟩

/-- Claim C3 is false on the code for retryable HTTP statuses: the 429/5xx
branch only logs and never records an exception, so when every attempt returns
such a status the loop ends with `last_exc is None` and the
`assert last_exc is not None` fails, raising `AssertionError` instead of the
last observed error.  Only when the failures are raised exceptions (connection
errors, or statuses routed through `raise_for_status`) is the last observed
error re-raised. -/
theorem c3_retryable_status_raises_assertion_error :
    get_with_retries (fun _ => .resp 429) 3 = .failure .assertionError 3 3 ∧
    get_with_retries (fun _ => .resp 503) 3 = .failure .assertionError 3 3 ∧
    get_with_retries (fun _ => .connError 7) 3 = .failure (.connError 7) 3 3 := by
  exact ⟨rfl, rfl, rfl⟩

/-! ## Theorems: order polling (C8) -/

/-- Claim C8 is false on the code: the body of the `while True` loop in
`poll_and_download` ends in an unconditional `return fname` inside the `with`
block, so the first download response's body is written and returned no matter
whether it is the ready file content; the deadline check and the poll sleep are
dead code and no `TimeoutError` is ever raised.  The per-chunk skip behaviour
of `scrape_station` does hold: a chunk whose download raises is dropped and the
next chunk is still processed. -/
theorem c8_no_polling_no_timeout :
    poll_and_download (fun _ => ⟨200, "pending"⟩) = .file "pending" 1 ∧
    poll_and_download (fun n => if n = 0 then ⟨200, "pending"⟩ else ⟨200, "csv"⟩) =
      .file "pending" 1 ∧
    poll_and_download (fun _ => ⟨500, ""⟩) = .httpError 500 1 ∧
    scrape_station_chunks (fun c => if c = 0 then none else some "chunk1.csv") [0, 1] =
      ["chunk1.csv"] := by
  exact ⟨rfl, rfl, rfl, rfl⟩

/-! ## Theorems: outing write-back (C1) -/

/-- If every route referenced by the list is already in the store, the route
loop writes nothing and leaves `outing_not_written` untouched. -/
theorem insert_item_routes_loop_all_known (fetch : ℕ → Option RouteRecord) :
    ∀ (rs store : List ℕ) (onw : Bool), (∀ r ∈ rs, r ∈ store) →
      insert_item_routes_loop fetch rs store onw = ([], store, onw) := by
  intro rs
  induction rs with
  | nil => intro store onw _; rfl
  | cons r rest ih =>
    intro store onw hall
    rw [insert_item_routes_loop, if_pos (hall r (by simp))]
    exact ih store onw fun x hx => hall x (by simp [hx])

/-- Unfolding equation for the route loop: head route already present. -/
theorem insert_item_routes_loop_cons_mem (fetch : ℕ → Option RouteRecord)
    {r : ℕ} {store : List ℕ} (rest : List ℕ) (onw : Bool) (h : r ∈ store) :
    insert_item_routes_loop fetch (r :: rest) store onw
      = insert_item_routes_loop fetch rest store onw := by
  rw [insert_item_routes_loop, if_pos h]

/-- Unfolding equation for the route loop: head route missing and its fetch
returned an error record. -/
theorem insert_item_routes_loop_cons_err (fetch : ℕ → Option RouteRecord)
    {r : ℕ} {store : List ℕ} (rest : List ℕ) (onw : Bool) (h : r ∉ store)
    (he : fetch r = none) :
    insert_item_routes_loop fetch (r :: rest) store onw
      = insert_item_routes_loop fetch rest store onw := by
  rw [insert_item_routes_loop, if_neg h, he]

/-- Unfolding equation for the route loop: head route missing and fetched. -/
theorem insert_item_routes_loop_cons_ok (fetch : ℕ → Option RouteRecord)
    {r : ℕ} {store : List ℕ} {rec : RouteRecord} (rest : List ℕ) (onw : Bool)
    (h : r ∉ store) (he : fetch r = some rec) :
    insert_item_routes_loop fetch (r :: rest) store onw
      = (.insert_route rec ::
          (insert_item_routes_loop fetch rest (rec.route_id :: store) false).1,
         (insert_item_routes_loop fetch rest (rec.route_id :: store) false).2.1,
         (insert_item_routes_loop fetch rest (rec.route_id :: store) false).2.2) := by
  rw [insert_item_routes_loop, if_neg h, he]

/-- Behaviour of the route loop of `_insert_item` when every missing route is
successfully fetched: each route id that is in the list but not in the store is
inserted exactly once, no outing insert happens inside the loop, and
`outing_not_written` ends up true iff it started true and no route was missing. -/
theorem insert_item_routes_loop_spec (fetch : ℕ → Option RouteRecord)
    (hf : ∀ r rec, fetch r = some rec → rec.route_id = r) :
    ∀ (rs store : List ℕ) (onw : Bool),
      (∀ r ∈ rs, r ∉ store → (fetch r).isSome) →
      (∀ x, count_route_inserts (insert_item_routes_loop fetch rs store onw).1 x
          = if x ∈ rs ∧ x ∉ store then 1 else 0) ∧
      has_outing_insert (insert_item_routes_loop fetch rs store onw).1 = false ∧
      (insert_item_routes_loop fetch rs store onw).2.2
          = (onw && rs.all (fun r => decide (r ∈ store))) := by
  intro rs
  induction rs with
  | nil =>
    intro store onw _
    refine ⟨fun x => ?_, rfl, by simp [insert_item_routes_loop]⟩
    simp [insert_item_routes_loop, count_route_inserts]
  | cons r rest ih =>
    intro store onw hok
    by_cases hr : r ∈ store
    · rw [insert_item_routes_loop_cons_mem fetch rest onw hr]
      obtain ⟨ihc, iho, ihw⟩ := ih store onw (fun x hx hnx => hok x (by simp [hx]) hnx)
      refine ⟨fun x => ?_, iho, ?_⟩
      · rw [ihc x]
        by_cases hxr : x = r
        · subst hxr
          simp [hr]
        · simp [hxr]
      · rw [ihw]
        simp [hr]
    · have hsome := hok r (by simp) hr
      obtain ⟨rec, hrec⟩ := Option.isSome_iff_exists.mp hsome
      have hid : rec.route_id = r := hf r rec hrec
      obtain ⟨ihc, iho, ihw⟩ := ih (rec.route_id :: store) false (by
        intro x hx hnx
        exact hok x (by simp [hx]) (by rw [hid] at hnx; simp at hnx; exact hnx.2))
      rw [insert_item_routes_loop_cons_ok fetch rest onw hr hrec]
      refine ⟨fun x => ?_, ?_, ?_⟩
      · simp only [count_route_inserts, List.countP_cons] at *
        rw [ihc x]
        by_cases hxr : x = r
        · subst hxr
          simp [hid, hr]
        · have hrx : ¬ r = x := fun h => hxr h.symm
          by_cases hx1 : x ∈ rest <;> by_cases hx2 : x ∈ store <;>
            simp [hid, hxr, hrx, hx1, hx2]
      · simpa [has_outing_insert] using iho
      · rw [ihw]
        simp [hr]

/-- Unfolding equation for `insert_item_outing` in terms of the route loop. -/
theorem insert_item_outing_eq (fetch : ℕ → Option RouteRecord) (store : List ℕ)
    (outing : OutingRecord) :
    insert_item_outing fetch store outing
      = if (insert_item_routes_loop fetch outing.routes store true).2.2
        then ((insert_item_routes_loop fetch outing.routes store true).1
                ++ [.insert_outing outing.outing_id],
              (insert_item_routes_loop fetch outing.routes store true).2.1)
        else ((insert_item_routes_loop fetch outing.routes store true).1,
              (insert_item_routes_loop fetch outing.routes store true).2.1) := by
  rfl

/-- Claim C1: during write-back of an outing item whose referenced routes are
all fetchable, every referenced route id absent from the store triggers exactly
one route insert (the fetched record, which carries its outing list), the
outing itself is not separately inserted whenever at least one referenced route
was missing, and it is inserted directly when all referenced routes already
existed. -/
theorem c1_outing_write_back (fetch : ℕ → Option RouteRecord) (store : List ℕ)
    (outing : OutingRecord)
    (hf : ∀ r rec, fetch r = some rec → rec.route_id = r)
    (hok : ∀ r ∈ outing.routes, r ∉ store → (fetch r).isSome) :
    ((∃ r ∈ outing.routes, r ∉ store) →
       (∀ x, count_route_inserts (insert_item_outing fetch store outing).1 x
           = if x ∈ outing.routes ∧ x ∉ store then 1 else 0) ∧
       has_outing_insert (insert_item_outing fetch store outing).1 = false) ∧
    ((∀ r ∈ outing.routes, r ∈ store) →
       (insert_item_outing fetch store outing).1 = [.insert_outing outing.outing_id]) := by
  obtain ⟨hc, ho, hw⟩ := insert_item_routes_loop_spec fetch hf outing.routes store true hok
  constructor
  · intro ⟨r, hr, hrn⟩
    have hall : outing.routes.all (fun x => decide (x ∈ store)) = false := by
      rw [Bool.eq_false_iff]
      intro hAll
      have hmem := List.all_eq_true.mp hAll r hr
      simp only [decide_eq_true_eq] at hmem
      exact hrn hmem
    rw [insert_item_outing_eq, if_neg (by rw [hw, hall, Bool.and_false]; exact fun h => by cases h)]
    exact ⟨hc, ho⟩
  · intro hall
    rw [insert_item_outing_eq,
      insert_item_routes_loop_all_known fetch outing.routes store true hall]
    simp

/-- Witness for C1: the outing 900 references routes 1 (present) and 2
(absent); route 2 is inserted exactly once, route 1 not at all, and the outing
is not separately inserted.  The outing 901 references only route 1 (present)
and is inserted directly. -/
theorem c1_outing_write_back_witness :
    (∀ x, count_route_inserts
        (insert_item_outing (fun r => some ⟨r, [900]⟩) [1] ⟨900, [1, 2]⟩).1 x
        = if x ∈ [1, 2] ∧ x ∉ [1] then 1 else 0) ∧
    has_outing_insert
        (insert_item_outing (fun r => some ⟨r, [900]⟩) [1] ⟨900, [1, 2]⟩).1 = false ∧
    (insert_item_outing (fun r => some ⟨r, [900]⟩) [1] ⟨901, [1]⟩).1
        = [.insert_outing 901] := by
  have h1 := c1_outing_write_back (fun r => some ⟨r, [900]⟩) [1] ⟨900, [1, 2]⟩
    (fun r rec h => by cases h; rfl) (fun r _ _ => rfl)
  have h2 := c1_outing_write_back (fun r => some ⟨r, [900]⟩) [1] ⟨901, [1]⟩
    (fun r rec h => by cases h; rfl) (fun r _ _ => rfl)
  obtain ⟨hca, hcb⟩ := h1.1 ⟨2, by simp, by simp⟩
  exact ⟨hca, hcb, h2.2 (by simp)⟩

/-! ## Theorems: station metadata harvest (C7, C10) -/

/-- Commit recogniser on harvest events. -/
def is_commit : MFEvent → Bool
  | .commit => true
  | _ => false

/-- A `filterMap` that drops by a boolean test is a `filter` followed by a `map`. -/
theorem filterMap_ite {α β : Type} (p : α → Bool) (f : α → β) (l : List α) :
    l.filterMap (fun s => if p s then none else some (f s))
      = (l.filter fun s => !p s).map f := by
  induction l with
  | nil => rfl
  | cons a t ih =>
    by_cases h : p a <;> simp [List.filterMap_cons, List.filter_cons, h, ih]

/-- Characterisation of the per-station scrape loop: one metadata API call per
non-skipped station, and one `stationsList` entry per station recording its
skip flag. -/
theorem scrape_stations_loop_eq (already : List String) (l : List MFStationListing) :
    scrape_stations_loop already l
      = (l.filterMap (fun s => if mf_station_skipped already s then none
            else some (.api_info s.id)),
         l.map fun s => (s.id, mf_station_skipped already s)) := by
  induction l with
  | nil => rfl
  | cons a t ih =>
    rw [scrape_stations_loop, ih]
    by_cases h : mf_station_skipped already a <;>
      simp [List.filterMap_cons, h]

/-- Characterisation of the write loop: one insert (with the `of_interest`
default `true`) per non-skipped entry, then exactly one commit. -/
theorem mf_write_loop_eq (lst : List (String × Bool)) :
    mf_write_loop lst
      = (lst.filterMap fun p => if p.2 then none
           else some (.insert_station ⟨p.1, true⟩)) ++ [.commit] := by
  induction lst with
  | nil => rfl
  | cons a t ih =>
    rcases a with ⟨sid, skipped⟩
    rw [mf_write_loop]
    by_cases h : skipped <;> simp [List.filterMap_cons, h, ih]

/-- Unfolding equation for a non-skipped department. -/
theorem process_department_eq (listing : ℕ → List MFStationListing)
    (already : List String) (d : ℕ)
    (h : d ∉ already_scraped_departments already) :
    process_department listing already d
      = (MFEvent.api_list d :: (scrape_stations_loop already (listing d)).1)
        ++ mf_write_loop (scrape_stations_loop already (listing d)).2 := by
  rw [process_department, if_neg h]
  rfl

/-- Claim C7: for a region number `d` in the fixed range 1..95, if some station
id already in the store has its first two characters parsing to `d`, the
harvest performs no work at all for region `d` (zero API calls, zero inserts);
otherwise one station-list call is made, one metadata call per remaining
station (after dropping known, closed, and the hard-excluded id), the
remaining stations are inserted as one batch, and the region's trace carries
exactly one commit, placed after all of the region's inserts. -/
theorem c7_region_restart (listing : ℕ → List MFStationListing)
    (already : List String) (d : ℕ) (_hd : 1 ≤ d ∧ d ≤ 95)
    (_hparse : ∀ s ∈ already, (parse_nat (s.take 2)).isSome) :
    ((∃ s ∈ already, parse_nat (s.take 2) = some d) →
       process_department listing already d = []) ∧
    ((∀ s ∈ already, parse_nat (s.take 2) ≠ some d) →
       process_department listing already d
         = (MFEvent.api_list d ::
             (((listing d).filter fun s => !mf_station_skipped already s).map
               fun s => MFEvent.api_info s.id))
           ++ ((((listing d).filter fun s => !mf_station_skipped already s).map
                 fun s => MFEvent.insert_station ⟨s.id, true⟩)
               ++ [MFEvent.commit]) ∧
       (process_department listing already d).countP is_commit = 1) := by
  constructor
  · intro ⟨s, hs, hps⟩
    have hin : d ∈ already_scraped_departments already :=
      List.mem_filterMap.2 ⟨s, hs, hps⟩
    rw [process_department, if_pos hin]
  · intro hnone
    have hnotin : d ∉ already_scraped_departments already := by
      intro hin
      obtain ⟨s, hs, hps⟩ := List.mem_filterMap.1 hin
      exact hnone s hs hps
    have heq : process_department listing already d
        = (MFEvent.api_list d ::
            (((listing d).filter fun s => !mf_station_skipped already s).map
              fun s => MFEvent.api_info s.id))
          ++ ((((listing d).filter fun s => !mf_station_skipped already s).map
                fun s => MFEvent.insert_station ⟨s.id, true⟩)
              ++ [MFEvent.commit]) := by
      rw [process_department_eq listing already d hnotin, scrape_stations_loop_eq]
      simp only [mf_write_loop_eq, List.filterMap_map]
      rw [filterMap_ite (mf_station_skipped already) (fun s => MFEvent.api_info s.id)]
      congr 1
      rw [show (fun p : String × Bool => if p.2 then (none : Option MFEvent)
            else some (.insert_station ⟨p.1, true⟩)) ∘ (fun s : MFStationListing =>
            (s.id, mf_station_skipped already s))
          = fun s : MFStationListing => if mf_station_skipped already s then none
            else some (.insert_station ⟨s.id, true⟩) from rfl]
      rw [filterMap_ite (mf_station_skipped already)
        (fun s => MFEvent.insert_station ⟨s.id, true⟩)]
    refine ⟨heq, ?_⟩
    rw [heq]
    have hz1 : (((listing d).filter fun s => !mf_station_skipped already s).map
        (fun s => MFEvent.api_info s.id)).countP is_commit = 0 := by
      rw [List.countP_eq_zero]
      intro e he
      obtain ⟨s, _, rfl⟩ := List.mem_map.1 he
      simp [is_commit]
    have hz2 : (((listing d).filter fun s => !mf_station_skipped already s).map
        (fun s => MFEvent.insert_station ⟨s.id, true⟩)).countP is_commit = 0 := by
      rw [List.countP_eq_zero]
      intro e he
      obtain ⟨s, _, rfl⟩ := List.mem_map.1 he
      simp [is_commit]
    simp [List.countP_append, List.countP_cons, hz1, hz2, is_commit]

/-- Witness for C7: with station `"74000001"` in the store, region 74 is
skipped outright, while region 1 (not yet harvested) is scraped and its trace
carries exactly one commit. -/
theorem c7_region_restart_witness :
    process_department (fun _ => [⟨"74123401", true⟩, ⟨"74123402", false⟩])
      ["74000001"] 74 = [] ∧
    (process_department (fun _ => [⟨"74123401", true⟩, ⟨"74123402", false⟩])
      ["74000001"] 1).countP is_commit = 1 := by
  constructor
  · exact (c7_region_restart (fun _ => [⟨"74123401", true⟩, ⟨"74123402", false⟩])
      ["74000001"] 74 (by decide) (by decide)).1 ⟨"74000001", by decide, by decide⟩
  · exact ((c7_region_restart (fun _ => [⟨"74123401", true⟩, ⟨"74123402", false⟩])
      ["74000001"] 1 (by decide) (by decide)).2 (by decide)).2

/-- Claim C10: every station inserted by the metadata harvest carries the
insertion default `of_interest = true` (the harvest never passes the flag
explicitly), and the interest-flag recomputation can only turn the flag off:
a station the recomputation reports as `true` was already `true` before, a
station with zero associated routes is set to `false`, and a station with at
least one associated route keeps its previous flag unchanged. -/
theorem c10_station_flag_lifecycle :
    (∀ (listing : ℕ → List MFStationListing) (already : List String) (d : ℕ)
       (row : WeatherStationRow),
       MFEvent.insert_station row ∈ process_department listing already d →
       row.of_interest = true) ∧
    (∀ (route_count : String → ℕ) (of_interest : String → Bool) (s : String),
       (update_weather_stations_interest_flag route_count of_interest s = true →
          of_interest s = true) ∧
       (route_count s = 0 →
          update_weather_stations_interest_flag route_count of_interest s = false) ∧
       (route_count s ≠ 0 →
          update_weather_stations_interest_flag route_count of_interest s
            = of_interest s)) := by
  constructor
  · intro listing already d row hmem
    by_cases hin : d ∈ already_scraped_departments already
    · rw [process_department, if_pos hin] at hmem
      cases hmem
    · rw [process_department_eq listing already d hin, scrape_stations_loop_eq,
        mf_write_loop_eq] at hmem
      rcases List.mem_append.1 hmem with h1 | h2
      · rcases List.mem_cons.1 h1 with h | h
        · cases h
        · obtain ⟨s, _, hs⟩ := List.mem_filterMap.1 h
          split at hs
          · cases hs
          · cases hs
      · rcases List.mem_append.1 h2 with h | h
        · obtain ⟨p, _, hp⟩ := List.mem_filterMap.1 h
          split at hp
          · cases hp
          · injection hp with hp'
            injection hp' with hp''
            rw [← hp'']
        · rw [List.mem_singleton] at h
          cases h
  · intro route_count of_interest s
    refine ⟨?_, ?_, ?_⟩ <;> intro h <;>
      simp only [update_weather_stations_interest_flag] at *
    · by_cases hc : route_count s = 0
      · rw [if_pos hc] at h
        cases h
      · rwa [if_neg hc] at h
    · rw [if_pos h]
    · rw [if_neg h]

/-- Witness for C10: a concrete harvest run inserts station `"01001"` with
`of_interest = true`, and the recomputation turns off the flag of a station
with zero routes while leaving a flagged station with one route unchanged. -/
theorem c10_station_flag_lifecycle_witness :
    (⟨"01001", true⟩ : WeatherStationRow).of_interest = true ∧
    update_weather_stations_interest_flag (fun _ => 0) (fun _ => true) "x" = false ∧
    update_weather_stations_interest_flag (fun _ => 1) (fun _ => true) "x" = true := by
  have htrace : process_department (fun _ => [⟨"01001", true⟩]) [] 1
      = [.api_list 1, .api_info "01001", .insert_station ⟨"01001", true⟩, .commit] := by
    have hskip : mf_station_skipped [] ⟨"01001", true⟩ = false := by decide
    rw [process_department, if_neg (by simp [already_scraped_departments])]
    rw [scrape_stations_metadata]
    simp [scrape_stations_loop, hskip, mf_write_loop]
  refine ⟨c10_station_flag_lifecycle.1 (fun _ => [⟨"01001", true⟩]) [] 1
      ⟨"01001", true⟩ (by rw [htrace]; simp), ?_, ?_⟩
  · exact (c10_station_flag_lifecycle.2 (fun _ => 0) (fun _ => true) "x").2.1 rfl
  · exact (c10_station_flag_lifecycle.2 (fun _ => 1) (fun _ => true) "x").2.2 (by norm_num)

/-! ## Theorems: attribution top-K (C5) and interest flag (C6) -/

/-- Claim C5: for a route whose bounding-box query returned no candidate, the
loop body leaves the route untouched and counts it uncovered; for a non-empty
candidate list it replaces the route's station association by exactly the
`min(10, #candidates)` candidates of smallest haversine distance, listed in
ascending distance order (sorted prefix of a stable sort, every kept candidate
at most as far as every dropped one). -/
theorem c5_top_k (route : RouteRow) (stations : List StationRow)
    (counters : AttrCounters) :
    (stations.isEmpty = true →
       attribution_step stations route counters
         = (route, { processed := counters.processed + 1,
                     updated := counters.updated,
                     no_station_candidates := counters.no_station_candidates + 1 })) ∧
    (stations.isEmpty = false →
       attribution_step stations route counters
         = ({ route with stations := filter_stations route stations 10 },
            { processed := counters.processed + 1,
              updated := counters.updated + 1,
              no_station_candidates := counters.no_station_candidates }) ∧
       ∃ kept dropped : List StationRow,
         filter_stations route stations 10 = kept.map (·.station_id) ∧
         kept.length = min 10 stations.length ∧
         (kept ++ dropped).Perm stations ∧
         kept.Pairwise
           (fun s1 s2 => station_distance route s1 ≤ station_distance route s2) ∧
         (∀ s1 ∈ kept, ∀ s2 ∈ dropped,
            station_distance route s1 ≤ station_distance route s2)) := by
  haveI : IsTotal StationRow
      (fun s1 s2 => station_distance route s1 ≤ station_distance route s2) :=
    ⟨fun a b => le_total _ _⟩
  haveI : IsTrans StationRow
      (fun s1 s2 => station_distance route s1 ≤ station_distance route s2) :=
    ⟨fun _ _ _ hab hbc => le_trans hab hbc⟩
  constructor
  · intro h
    simp [attribution_step, h]
  · intro h
    have hsorted := List.sorted_insertionSort
      (fun s1 s2 => station_distance route s1 ≤ station_distance route s2) stations
    constructor
    · simp [attribution_step, h]
    · refine ⟨(stations.insertionSort
          (fun s1 s2 => station_distance route s1 ≤ station_distance route s2)).take 10,
        (stations.insertionSort
          (fun s1 s2 => station_distance route s1 ≤ station_distance route s2)).drop 10,
        ?_, ?_, ?_, ?_, ?_⟩
      · rw [filter_stations, if_neg (by simp [h])]
      · rw [List.length_take, List.length_insertionSort]
      · rw [List.take_append_drop]
        exact List.perm_insertionSort _ stations
      · exact List.Pairwise.sublist (List.take_sublist _ _) hsorted
      · have hp : ((stations.insertionSort
            (fun s1 s2 => station_distance route s1 ≤ station_distance route s2)).take 10
            ++ (stations.insertionSort
            (fun s1 s2 => station_distance route s1 ≤ station_distance route s2)).drop 10).Pairwise
            (fun s1 s2 => station_distance route s1 ≤ station_distance route s2) := by
          rw [List.take_append_drop]
          exact hsorted
        exact (List.pairwise_append.1 hp).2.2

/-- Evaluation of `filter_stations` on a single candidate. -/
theorem filter_stations_singleton (route : RouteRow) (s : StationRow) :
    filter_stations route [s] 10 = [s.station_id] := by
  rw [filter_stations, if_neg (by simp)]
  rfl

/-- Evaluation of the attribution loop body on a single candidate. -/
theorem attribution_step_singleton (s : StationRow) (route : RouteRow)
    (c : AttrCounters) :
    attribution_step [s] route c
      = ({ route with stations := [s.station_id] },
         { processed := c.processed + 1, updated := c.updated + 1,
           no_station_candidates := c.no_station_candidates }) := by
  rw [attribution_step]
  simp only [List.isEmpty_cons, Bool.false_eq_true, if_false, filter_stations_singleton]

/-- Witness for C5: with a single candidate station, the route's association is
replaced by exactly that station's id. -/
theorem c5_top_k_witness :
    ([(⟨"s1", 45, 6⟩ : StationRow)].isEmpty = false) ∧
    attribution_step [⟨"s1", 45, 6⟩] ⟨1, 45, 6, []⟩ ⟨0, 0, 0⟩
      = ({ route_id := 1, lat := 45, lon := 6,
           stations := filter_stations ⟨1, 45, 6, []⟩ [⟨"s1", 45, 6⟩] 10 },
         ⟨1, 1, 0⟩) ∧
    filter_stations ⟨1, 45, 6, []⟩ [⟨"s1", 45, 6⟩] 10 = ["s1"] := by
  have h := (c5_top_k ⟨1, 45, 6, []⟩ [⟨"s1", 45, 6⟩] ⟨0, 0, 0⟩).2 rfl
  exact ⟨rfl, h.1, filter_stations_singleton ⟨1, 45, 6, []⟩ ⟨"s1", 45, 6⟩⟩

/-- Evaluation of the one-route attribution pass used as the C6 scenario:
route 1 has the single in-box candidate `"s"`, which it gets attached to. -/
theorem attribution_pass_c6_scenario :
    attribution_pass (fun _ => [⟨"s", 45, 6⟩]) [⟨1, 45, 6, []⟩]
      = [{ route_id := 1, lat := 45, lon := 6, stations := ["s"] }] := by
  simp [attribution_pass, attribution_step_singleton]

/-- Claim C6 is false on the code: `update_weather_stations_interest_flag` only
ever sets the flag to `false` (for stations with no associated route) and never
back to `true`, so a station whose flag was `false` before the pass stays
`false` even if the pass attaches it to a route: here the pass attaches station
`"s"` to route 1 (route count 1) and yet its flag after the global
recomputation is still `false`, contradicting the claimed "of_interest is false
iff the station has zero routes" biconditional. -/
theorem c6_interest_flag_counterexample :
    station_route_count
        (attribution_pass (fun _ => [⟨"s", 45, 6⟩]) [⟨1, 45, 6, []⟩]) "s" = 1 ∧
    attribution_pass_flags (fun _ => [⟨"s", 45, 6⟩]) [⟨1, 45, 6, []⟩]
        (fun _ => false) "s" = false := by
  constructor
  · rw [attribution_pass_c6_scenario]
    simp [station_route_count]
  · simp [attribution_pass_flags, update_weather_stations_interest_flag]

/-- Claim C6, amended: after the pass and the global recomputation, a station
with zero associated routes always has `of_interest = false`; a station with at
least one associated route keeps its pre-pass flag; hence the claimed
biconditional (`of_interest` false iff zero routes) holds exactly when every
station's flag was `true` before the recomputation (as it is for freshly
inserted stations, whose insertion default is `true`). -/
theorem c6_interest_flag_amended (candidates : RouteRow → List StationRow)
    (routes : List RouteRow) (flags0 : String → Bool) :
    (∀ s, station_route_count (attribution_pass candidates routes) s = 0 →
       attribution_pass_flags candidates routes flags0 s = false) ∧
    (∀ s, station_route_count (attribution_pass candidates routes) s ≠ 0 →
       attribution_pass_flags candidates routes flags0 s = flags0 s) ∧
    ((∀ s, flags0 s = true) →
       ∀ s, (attribution_pass_flags candidates routes flags0 s = false ↔
         station_route_count (attribution_pass candidates routes) s = 0)) := by
  refine ⟨fun s h => ?_, fun s h => ?_, fun hall s => ?_⟩
  · simp [attribution_pass_flags, update_weather_stations_interest_flag, h]
  · simp [attribution_pass_flags, update_weather_stations_interest_flag, h]
  · by_cases h : station_route_count (attribution_pass candidates routes) s = 0 <;>
      simp [attribution_pass_flags, update_weather_stations_interest_flag, h, hall s]

/-- Witness for the amended C6: with all pre-pass flags `true`, the
biconditional holds on a concrete pass, and the station attached to route 1
indeed ends up flagged `true`. -/
theorem c6_interest_flag_amended_witness :
    ((attribution_pass_flags (fun _ => [⟨"s", 45, 6⟩]) [⟨1, 45, 6, []⟩]
        (fun _ => true) "s" = false)
      ↔ station_route_count
          (attribution_pass (fun _ => [⟨"s", 45, 6⟩]) [⟨1, 45, 6, []⟩]) "s" = 0) ∧
    attribution_pass_flags (fun _ => [⟨"s", 45, 6⟩]) [⟨1, 45, 6, []⟩]
        (fun _ => true) "s" = true := by
  refine ⟨(c6_interest_flag_amended (fun _ => [⟨"s", 45, 6⟩]) [⟨1, 45, 6, []⟩]
      (fun _ => true)).2.2 (fun _ => rfl) "s", ?_⟩
  rw [attribution_pass_flags, update_weather_stations_interest_flag]
  simp only [attribution_pass_c6_scenario]
  simp [station_route_count]

/-! ## Theorems: bounding box vs haversine circle (C4) -/

/-- Trigonometric identity behind the C4 counterexample, an instance of the
triple-angle formula at `π/18`:
`sin²(10°) + (1/2)·sin(10°) = sin²(20°)`. -/
theorem sin_pi_div_18_sq_identity :
    Real.sin (π / 18) ^ 2 + 1 / 2 * Real.sin (π / 18)
      = Real.sin (π / 9) ^ 2 := by
  have h3 := Real.sin_three_mul (π / 18)
  rw [show 3 * (π / 18) = π / 6 by ring, Real.sin_pi_div_six] at h3
  have hB : 3 * Real.sin (π / 18) - 4 * Real.sin (π / 18) ^ 3 = 1 / 2 := h3.symm
  have hA : Real.sin (π / 18) ^ 2 + Real.cos (π / 18) ^ 2 = 1 :=
    Real.sin_sq_add_cos_sq _
  have h2 := Real.sin_two_mul (π / 18)
  rw [show 2 * (π / 18) = π / 9 by ring] at h2
  rw [h2]
  linear_combination (-4 * Real.sin (π / 18) ^ 2) * hA + (- Real.sin (π / 18)) * hB

/-- The haversine distance between (60°, 0°) and (80°, 180°) is exactly the
central angle 40° = 2π/9 rad times the Earth radius: the two points and the
north pole are on one meridian circle, (90° − 60°) + (90° − 80°) = 40°. -/
theorem haversine_60_0_80_180 :
    haversine_distance 60 0 80 180 = 6371 * (2 * (π / 9)) := by
  have hπ := Real.pi_pos
  rw [haversine_distance, radians, radians, radians, radians]
  rw [show ((80 : ℝ) - 60) * π / 180 / 2 = π / 18 by ring,
    show (60 : ℝ) * π / 180 = π / 3 by ring,
    show (80 : ℝ) * π / 180 = 4 * π / 9 by ring,
    show ((180 : ℝ) - 0) * π / 180 / 2 = π / 2 by ring,
    Real.sin_pi_div_two, Real.cos_pi_div_three]
  rw [show Real.cos (4 * π / 9) = Real.sin (π / 18) by
    rw [← Real.sin_pi_div_two_sub]
    congr 1
    ring]
  rw [show Real.sin (π / 18) ^ 2 + 1 / 2 * Real.sin (π / 18) * 1 ^ 2
      = Real.sin (π / 9) ^ 2 by
    rw [one_pow, mul_one]
    exact sin_pi_div_18_sq_identity]
  have hs9 : (0 : ℝ) ≤ Real.sin (π / 9) :=
    Real.sin_nonneg_of_nonneg_of_le_pi (by positivity) (by linarith)
  have hc9pos : (0 : ℝ) < Real.cos (π / 9) := by
    apply Real.cos_pos_of_mem_Ioo
    constructor <;> [linarith; linarith]
  rw [Real.sqrt_sq hs9]
  rw [show (1 : ℝ) - Real.sin (π / 9) ^ 2 = Real.cos (π / 9) ^ 2 by
    have := Real.sin_sq_add_cos_sq (π / 9)
    linarith]
  rw [Real.sqrt_sq hc9pos.le]
  rw [atan2, if_pos hc9pos, ← Real.tan_eq_sin_div_cos,
    Real.arctan_tan (by linarith) (by linarith)]

/-- Claim C4 is false on the code: the point (80°, 180°) lies at haversine
distance ≈ 4449 km ≤ R = 6371 km from the centre (60°, 0°) — the two points
straddle the north pole on one meridian, central angle 40° — yet its longitude
180° lies strictly outside the box's `max_lon = 360/π ≈ 114.6°`, because the
`Δlon = Δlat / cos(lat)` formula under-covers the true circle away from the
equator (the exact extreme is `arcsin(sin(R/6371)/cos lat)`, and for
`R/6371 ≥ π/2 − lat` the circle even wraps over the pole and spans every
longitude).  The centre is not a pole (|60| < 90) and R > 0, so the claim's
hypotheses hold. -/
theorem c4_bounding_box_counterexample :
    |(60 : ℝ)| < 90 ∧ (0 : ℝ) < 6371 ∧ |(80 : ℝ)| ≤ 90 ∧
    haversine_distance 60 0 80 180 ≤ 6371 ∧
    (bounding_box 60 0 6371).max_lon < 180 := by
  have hπ := Real.pi_pos
  have hπ3 : (3 : ℝ) < π := Real.pi_gt_three
  refine ⟨by norm_num, by norm_num, by norm_num, ?_, ?_⟩
  · rw [haversine_60_0_80_180]
    nlinarith [Real.pi_le_four]
  · rw [bounding_box]
    simp only [radians]
    rw [show (60 : ℝ) * π / 180 = π / 3 by ring, Real.cos_pi_div_three]
    rw [show (0 : ℝ) + 6371 / 6371 * (180 / π) / (1 / 2) = 360 / π by
      field_simp
      norm_num]
    rw [div_lt_iff₀ hπ]
    nlinarith

/-- Claim C4, amended: with poles excluded (|lat| < 90), R > 0 and the point a
valid coordinate (|lat2| ≤ 90), every point within haversine distance R of the
centre lies within the *latitude* bounds `[min_lat, max_lat]` of the returned
box; the longitude bounds do not contain the circle in general (see the
counterexample).  The proof shows the haversine central angle dominates the
latitude difference. -/
theorem c4_bounding_box_amended (lat lon R lat2 lon2 : ℝ)
    (hlat : |lat| < 90) (hlat2 : |lat2| ≤ 90) (_hR : 0 < R)
    (hdist : haversine_distance lat lon lat2 lon2 ≤ R) :
    (bounding_box lat lon R).min_lat ≤ lat2 ∧
    lat2 ≤ (bounding_box lat lon R).max_lat := by
  have hπ := Real.pi_pos
  obtain ⟨hlatl, hlatr⟩ := abs_lt.mp hlat
  obtain ⟨hlat2l, hlat2r⟩ := abs_le.mp hlat2
  have hφ1l : -(π / 2) < lat * π / 180 := by nlinarith
  have hφ1r : lat * π / 180 < π / 2 := by nlinarith
  have hφ2l : -(π / 2) ≤ lat2 * π / 180 := by nlinarith
  have hφ2r : lat2 * π / 180 ≤ π / 2 := by nlinarith
  have hcos1 : 0 ≤ Real.cos (lat * π / 180) :=
    Real.cos_nonneg_of_mem_Icc ⟨hφ1l.le, hφ1r.le⟩
  have hcos2 : 0 ≤ Real.cos (lat2 * π / 180) :=
    Real.cos_nonneg_of_mem_Icc ⟨hφ2l, hφ2r⟩
  have hdφ_le_pi : |(lat2 - lat) * π / 180| ≤ π := by
    rw [abs_le]
    constructor <;> nlinarith
  rw [haversine_distance, radians, radians, radians, radians] at hdist
  set A : ℝ := Real.sin ((lat2 - lat) * π / 180 / 2) ^ 2 +
      Real.cos (lat * π / 180) * Real.cos (lat2 * π / 180) *
        Real.sin ((lon2 - lon) * π / 180 / 2) ^ 2 with hA_def
  have hA0 : 0 ≤ A := by
    rw [hA_def]
    have := sq_nonneg (Real.sin ((lat2 - lat) * π / 180 / 2))
    have := mul_nonneg (mul_nonneg hcos1 hcos2)
      (sq_nonneg (Real.sin ((lon2 - lon) * π / 180 / 2)))
    linarith
  have hA1 : A ≤ 1 := by
    have hsq : Real.sin ((lon2 - lon) * π / 180 / 2) ^ 2 ≤ 1 := by
      have h1 := Real.neg_one_le_sin ((lon2 - lon) * π / 180 / 2)
      have h2 := Real.sin_le_one ((lon2 - lon) * π / 180 / 2)
      nlinarith
    have hprod : Real.cos (lat * π / 180) * Real.cos (lat2 * π / 180) *
        Real.sin ((lon2 - lon) * π / 180 / 2) ^ 2
        ≤ Real.cos (lat * π / 180) * Real.cos (lat2 * π / 180) :=
      mul_le_of_le_one_right (mul_nonneg hcos1 hcos2) hsq
    have hhalf : Real.sin ((lat2 - lat) * π / 180 / 2) ^ 2
        = 1 / 2 - Real.cos ((lat2 - lat) * π / 180) / 2 := by
      rw [Real.sin_sq_eq_half_sub]
      rw [show 2 * ((lat2 - lat) * π / 180 / 2) = (lat2 - lat) * π / 180 by ring]
    have hcc : Real.cos (lat * π / 180) * Real.cos (lat2 * π / 180)
        = (Real.cos (lat * π / 180 - lat2 * π / 180)
           + Real.cos (lat * π / 180 + lat2 * π / 180)) / 2 := by
      rw [Real.cos_add, Real.cos_sub]
      ring
    have hflip : Real.cos (lat * π / 180 - lat2 * π / 180)
        = Real.cos ((lat2 - lat) * π / 180) := by
      rw [show lat * π / 180 - lat2 * π / 180 = -((lat2 - lat) * π / 180) by ring,
        Real.cos_neg]
    have hle1 : Real.cos (lat * π / 180 + lat2 * π / 180) ≤ 1 :=
      Real.cos_le_one _
    rw [hA_def]
    nlinarith
  have hangle : |(lat2 - lat) * π / 180|
      ≤ 2 * atan2 (Real.sqrt A) (Real.sqrt (1 - A)) := by
    rcases hA1.eq_or_lt with hAeq | hAlt
    · -- A = 1 : atan2 1 0 = π/2, central angle π
      rw [hAeq]
      rw [show (1 : ℝ) - 1 = 0 by ring, Real.sqrt_zero, Real.sqrt_one]
      rw [show atan2 1 0 = π / 2 by
        rw [atan2]
        norm_num]
      linarith [hdφ_le_pi]
    · have hx : 0 < Real.sqrt (1 - A) := Real.sqrt_pos.2 (by linarith)
      have hsqrtA_lt : Real.sqrt A < 1 := by
        have := Real.sqrt_lt_sqrt hA0 hAlt
        rwa [Real.sqrt_one] at this
      have harcsin : atan2 (Real.sqrt A) (Real.sqrt (1 - A))
          = Real.arcsin (Real.sqrt A) := by
        rw [atan2, if_pos hx]
        have hmem : Real.sqrt A ∈ Set.Ioo (-(1 : ℝ)) 1 :=
          ⟨lt_of_lt_of_le (by norm_num) (Real.sqrt_nonneg A), hsqrtA_lt⟩
        have h := Real.arcsin_eq_arctan hmem
        rw [Real.sq_sqrt hA0] at h
        exact h.symm
      rw [harcsin]
      have hs_le : |Real.sin ((lat2 - lat) * π / 180 / 2)| ≤ Real.sqrt A := by
        rw [← Real.sqrt_sq_eq_abs]
        apply Real.sqrt_le_sqrt
        rw [hA_def]
        have := mul_nonneg (mul_nonneg hcos1 hcos2)
          (sq_nonneg (Real.sin ((lon2 - lon) * π / 180 / 2)))
        linarith
      have hmono : Real.arcsin |Real.sin ((lat2 - lat) * π / 180 / 2)|
          ≤ Real.arcsin (Real.sqrt A) := Real.monotone_arcsin hs_le
      have habs_half : |(lat2 - lat) * π / 180 / 2| ≤ π / 2 := by
        rw [abs_div, abs_two]
        have := hdφ_le_pi
        linarith [abs_nonneg ((lat2 - lat) * π / 180)]
      have harc_eq : Real.arcsin |Real.sin ((lat2 - lat) * π / 180 / 2)|
          = |(lat2 - lat) * π / 180 / 2| := by
        rcases le_or_lt 0 ((lat2 - lat) * π / 180 / 2) with ht | ht
        · have habs : |(lat2 - lat) * π / 180 / 2| = (lat2 - lat) * π / 180 / 2 :=
            abs_of_nonneg ht
          have hsn : 0 ≤ Real.sin ((lat2 - lat) * π / 180 / 2) :=
            Real.sin_nonneg_of_nonneg_of_le_pi ht (by
              rw [habs] at habs_half
              linarith)
          rw [abs_of_nonneg hsn, habs]
          exact Real.arcsin_sin (by rw [habs] at habs_half; linarith)
            (by rw [habs] at habs_half; linarith)
        · have habs : |(lat2 - lat) * π / 180 / 2| = -((lat2 - lat) * π / 180 / 2) :=
            abs_of_neg ht
          have hsn : Real.sin ((lat2 - lat) * π / 180 / 2) ≤ 0 := by
            have := Real.sin_nonneg_of_nonneg_of_le_pi (x := -((lat2 - lat) * π / 180 / 2))
              (by linarith) (by rw [habs] at habs_half; linarith)
            rw [Real.sin_neg] at this
            linarith
          rw [abs_of_nonpos hsn, ← Real.sin_neg, habs]
          exact Real.arcsin_sin (by rw [habs] at habs_half; linarith)
            (by rw [habs] at habs_half; linarith)
      have hfin2 : |(lat2 - lat) * π / 180 / 2| ≤ Real.arcsin (Real.sqrt A) := by
        rw [← harc_eq]
        exact hmono
      have habs2 : |(lat2 - lat) * π / 180 / 2| = |(lat2 - lat) * π / 180| / 2 := by
        rw [abs_div, abs_two]
      rw [habs2] at hfin2
      linarith
  have hcentral : 6371 * (2 * atan2 (Real.sqrt A) (Real.sqrt (1 - A))) ≤ R := hdist
  have hfinal : |lat2 - lat| ≤ R / 6371 * (180 / π) := by
    have h1 : |(lat2 - lat) * π / 180| = |lat2 - lat| * (π / 180) := by
      rw [show (lat2 - lat) * π / 180 = (lat2 - lat) * (π / 180) by ring,
        abs_mul, abs_of_pos (by positivity : (0 : ℝ) < π / 180)]
    have h2 : |lat2 - lat| * (π / 180) ≤ R / 6371 := by
      rw [← h1]
      calc |(lat2 - lat) * π / 180|
          ≤ 2 * atan2 (Real.sqrt A) (Real.sqrt (1 - A)) := hangle
        _ ≤ R / 6371 := by linarith
    have h3 : |lat2 - lat| = (|lat2 - lat| * (π / 180)) * (180 / π) := by
      field_simp
    rw [h3]
    calc (|lat2 - lat| * (π / 180)) * (180 / π)
        ≤ (R / 6371) * (180 / π) := by
          apply mul_le_mul_of_nonneg_right h2 (by positivity)
      _ = R / 6371 * (180 / π) := rfl
  rw [bounding_box]
  simp only []
  obtain ⟨hfl, hfr⟩ := abs_le.mp hfinal
  constructor <;> linarith

/-- Witness for the amended C4: the centre (0, 0) itself is at haversine
distance 0 ≤ 6371 km and lies within the latitude bounds of its own box. -/
theorem c4_bounding_box_amended_witness :
    |(0 : ℝ)| < 90 ∧ |(0 : ℝ)| ≤ 90 ∧ (0 : ℝ) < 6371 ∧
    haversine_distance 0 0 0 0 ≤ 6371 ∧
    ((bounding_box 0 0 6371).min_lat ≤ 0 ∧ 0 ≤ (bounding_box 0 0 6371).max_lat) := by
  have hdist : haversine_distance 0 0 0 0 ≤ 6371 := by
    rw [haversine_distance]
    simp only [radians]
    rw [show ((0 : ℝ) - 0) * π / 180 / 2 = 0 by ring,
      show (0 : ℝ) * π / 180 = 0 by ring]
    rw [Real.sin_zero, Real.cos_zero]
    rw [show (0 : ℝ) ^ 2 + 1 * 1 * 0 ^ 2 = 0 by ring, Real.sqrt_zero]
    rw [show (1 : ℝ) - 0 = 1 by ring, Real.sqrt_one]
    rw [show atan2 0 1 = 0 by
      rw [atan2, if_pos (by norm_num : (0 : ℝ) < 1)]
      norm_num]
    norm_num
  exact ⟨by norm_num, by norm_num, by norm_num, hdist,
    c4_bounding_box_amended 0 0 6371 0 0 (by norm_num) (by norm_num)
      (by norm_num) hdist⟩

end WillThisFreeze
